import Mathlib

/-!
Verification of the gamepad demo: a per-frame update/render loop moving a
player-controlled square and spawning projectiles.

The embedding is generic over a linear ordered field `F` standing for the
JavaScript number type, with the trigonometric primitives `cosF`, `sinF`
and `atan2F` (the host environment's Math.cos, Math.sin, Math.atan2) passed
as parameters; theorems that depend on actual trigonometric identities are
stated at `F := ℝ` with `Real.cos` / `Real.sin`.

Raw controller readings are modelled as a list of axis values and a list of
button-pressed flags; an index absent from the array is an absent reading
(JavaScript `undefined`).  `Math.abs(undefined) > deadZone` evaluates to
false (NaN comparison), which the `Option`-valued axis access reproduces;
the status-line update calls `.toFixed(2)` on the raw axis 0 and axis 1
values, which throws a TypeError when either is `undefined` — this is
modelled by the `Bool` component returned by `updateGamepadState` /
`tick` (`false` = the frame threw, skipping the projectile pass, the
render, and the re-arming of the loop).
-/

namespace GamepadDemo

/-- The `GamepadState` record of the source: position, orientation,
connectivity flag, firing flag and timestamp of the last shot (ms). -/
structure GamepadState (F : Type) where
  x : F
  y : F
  rotation : F
  connected : Bool
  shooting : Bool
  lastShotTime : ℤ
  deriving DecidableEq, Repr

/-- The `Projectile` record of the source. -/
structure Projectile (F : Type) where
  x : F
  y : F
  rotation : F
  speed : F
  active : Bool
  deriving DecidableEq, Repr

/-- Whole-demo state: the controlled entity plus the projectile array. -/
structure DemoState (F : Type) where
  gamepadState : GamepadState F
  projectiles : List (Projectile F)
  deriving DecidableEq, Repr

variable {F : Type} [LinearOrderedField F]

/-- The cooldown constant: 250 ms between shots. -/
def shootCooldown : ℤ := 250

/-- The dead zone constant `0.1`. -/
def deadZone : F := 1 / 10

/-- The compaction threshold `100` on the projectile array length. -/
def compactionThreshold : ℕ := 100

/-- The projectile created by `shootProjectile`: at the centre of the
rectangle (position plus 25 on each axis), with the entity's current
rotation, speed 8, active. -/
def newProjectile (gs : GamepadState F) : Projectile F :=
  { x := gs.x + 25
    y := gs.y + 25
    rotation := gs.rotation
    speed := 8
    active := true }

/-- The `shootProjectile` method: spawn only when strictly more than `shootCooldown`
milliseconds have passed since `lastShotTime`; on spawn, push the new
projectile and record the spawn time. -/
def shootProjectile (now : ℤ) (gs : GamepadState F) (projs : List (Projectile F)) :
    GamepadState F × List (Projectile F) :=
  if shootCooldown < now - gs.lastShotTime then
    ({ gs with lastShotTime := now }, projs ++ [newProjectile gs])
  else
    (gs, projs)

/-- One iteration of the `updateProjectiles` loop body on a single
projectile: an active projectile advances by `cos(rotation) * speed` /
`sin(rotation) * speed` and is deactivated when the new position leaves
`[0, w] × [0, h]`; an inactive projectile is untouched. -/
def stepProjectile (cosF sinF : F → F) (w h : F) (p : Projectile F) : Projectile F :=
  if p.active then
    let x2 := p.x + cosF p.rotation * p.speed
    let y2 := p.y + sinF p.rotation * p.speed
    { p with
      x := x2
      y := y2
      active := if x2 < 0 ∨ w < x2 ∨ y2 < 0 ∨ h < y2 then false else p.active }
  else p

/-- The `updateProjectiles` pass: advance every projectile in place, then, only when
the array holds more than `compactionThreshold` entries, drop the inactive
ones in one filter pass. -/
def updateProjectiles (cosF sinF : F → F) (w h : F) (projs : List (Projectile F)) :
    List (Projectile F) :=
  let moved := projs.map (stepProjectile cosF sinF w h)
  if compactionThreshold < moved.length then moved.filter (fun p => p.active) else moved

/-- Position update for one axis: move by `v * 5` only when the raw reading
is present and its magnitude exceeds the dead zone (an absent reading makes
the guard `Math.abs(undefined) > deadZone` false). -/
def axisMove (a : Option F) (pos : F) : F :=
  match a with
  | some v => if deadZone < |v| then pos + v * 5 else pos
  | none => pos

/-- Boundary clamping: `Math.max(0, Math.min(bound - 50, pos))`. -/
def clampCoord (bound : F) (pos : F) : F := max 0 (min (bound - 50) pos)

/-- The movement / rotation / clamping block of `updateGamepadState`
(source lines 114–151): axes 0 and 1 drive the position, axes 2 and 3
(defaulted to 0 when absent, the `|| 0` fallback) drive the rotation via
`atan2`, and both coordinates are then clamped into `[0, bound - 50]`. -/
def moveAndClamp (atan2F : F → F → F) (w h : F) (axes : List F) (gs : GamepadState F) :
    GamepadState F :=
  let x1 := axisMove (axes.get? 0) gs.x
  let y1 := axisMove (axes.get? 1) gs.y
  let rh := (axes.get? 2).getD 0
  let rv := (axes.get? 3).getD 0
  let rot := if deadZone < |rh| ∨ deadZone < |rv| then atan2F rv rh else gs.rotation
  { gs with x := clampCoord w x1, y := clampCoord h y1, rotation := rot }

/-- Button access `gamepad.buttons[i]?.pressed`: an absent button is not pressed. -/
def buttonPressed (buttons : List Bool) (i : ℕ) : Bool := (buttons.get? i).getD false

/-- The trigger chain: buttons 7, 5, 6, any match counts as pressed. -/
def readTrigger (buttons : List Bool) : Bool :=
  buttonPressed buttons 7 || buttonPressed buttons 5 || buttonPressed buttons 6

/-- Whether the status-line update completes: it calls `.toFixed(2)` on the
raw axis 0 and axis 1 values, which throws when either is absent. -/
def statusOk (axes : List F) : Bool := (axes.get? 0).isSome && (axes.get? 1).isSome

/-- The `updateGamepadState` body for a present first gamepad: move and clamp, then
handle the trigger (shoot and set the firing flag), then attempt the status
update.  The returned `Bool` is false when the status update throws; all
state mutations precede the throw point, so the returned state is the
mutated one either way. -/
def updateGamepadState (atan2F : F → F → F) (w h : F) (now : ℤ)
    (axes : List F) (buttons : List Bool)
    (gs : GamepadState F) (projs : List (Projectile F)) :
    (GamepadState F × List (Projectile F)) × Bool :=
  let gs1 := moveAndClamp atan2F w h axes gs
  let res :=
    if readTrigger buttons then
      let sp := shootProjectile now gs1 projs
      ({ sp.1 with shooting := true }, sp.2)
    else
      ({ gs1 with shooting := false }, projs)
  (res, statusOk axes)

/-- The initial state built in the constructor: rectangle centred on the
canvas, rotation 0, disconnected, not shooting, last shot at time 0. -/
def initState (w h : F) : DemoState F :=
  { gamepadState :=
      { x := w / 2 - 25
        y := h / 2 - 25
        rotation := 0
        connected := false
        shooting := false
        lastShotTime := 0 }
    projectiles := [] }

/-- The `gamepadconnected` handler: only the connectivity flag changes. -/
def onGamepadConnected (s : DemoState F) : DemoState F :=
  { s with gamepadState := { s.gamepadState with connected := true } }

/-- The `gamepaddisconnected` handler: only the connectivity flag changes. -/
def onGamepadDisconnected (s : DemoState F) : DemoState F :=
  { s with gamepadState := { s.gamepadState with connected := false } }

/-- One `gameLoop` tick.  `reading` is the first gamepad found by
`navigator.getGamepads()` (`none` when the list holds no gamepad).  When the
connectivity flag is set and a gamepad is present, `updateGamepadState`
runs first; if its status update throws (`Bool` false) the rest of the
frame — projectile pass, render, re-arming — is skipped.  Otherwise
`updateProjectiles` always runs, connected or not; rendering reads the
state without changing it. -/
def tick (cosF sinF : F → F) (atan2F : F → F → F) (w h : F) (now : ℤ)
    (reading : Option (List F × List Bool)) (s : DemoState F) : DemoState F × Bool :=
  if s.gamepadState.connected then
    match reading with
    | some (axes, buttons) =>
      let r := updateGamepadState atan2F w h now axes buttons s.gamepadState s.projectiles
      if r.2 then
        ({ gamepadState := r.1.1, projectiles := updateProjectiles cosF sinF w h r.1.2 }, true)
      else
        ({ gamepadState := r.1.1, projectiles := r.1.2 }, false)
    | none =>
      ({ gamepadState := s.gamepadState,
         projectiles := updateProjectiles cosF sinF w h s.projectiles }, true)
  else
    ({ gamepadState := s.gamepadState,
       projectiles := updateProjectiles cosF sinF w h s.projectiles }, true)

/-- The controlled entity lies within `[0, w - 50] × [0, h - 50]`
(the rectangle is 50 × 50). -/
def entityInBounds (w h : F) (gs : GamepadState F) : Prop :=
  0 ≤ gs.x ∧ gs.x ≤ w - 50 ∧ 0 ≤ gs.y ∧ gs.y ≤ h - 50

instance (w h : F) (gs : GamepadState F) : Decidable (entityInBounds w h gs) :=
  inferInstanceAs (Decidable (_ ∧ _ ∧ _ ∧ _))

/-! ### Helper lemmas shared by the claim theorems -/

theorem clampCoord_eq_self {bound pos : F} (h0 : 0 ≤ pos) (h1 : pos ≤ bound - 50) :
    clampCoord bound pos = pos := by
  unfold clampCoord
  rw [min_eq_right h1, max_eq_right h0]

theorem clampCoord_mem {bound : F} (hb : 50 ≤ bound) (pos : F) :
    0 ≤ clampCoord bound pos ∧ clampCoord bound pos ≤ bound - 50 := by
  unfold clampCoord
  exact ⟨le_max_left 0 _, max_le (by linarith) (min_le_left _ _)⟩

theorem shootProjectile_fst_x (now : ℤ) (gs : GamepadState F) (projs : List (Projectile F)) :
    (shootProjectile now gs projs).1.x = gs.x := by
  unfold shootProjectile
  by_cases hc : shootCooldown < now - gs.lastShotTime <;> simp [hc]

theorem shootProjectile_fst_y (now : ℤ) (gs : GamepadState F) (projs : List (Projectile F)) :
    (shootProjectile now gs projs).1.y = gs.y := by
  unfold shootProjectile
  by_cases hc : shootCooldown < now - gs.lastShotTime <;> simp [hc]

theorem shootProjectile_fst_rotation (now : ℤ) (gs : GamepadState F)
    (projs : List (Projectile F)) :
    (shootProjectile now gs projs).1.rotation = gs.rotation := by
  unfold shootProjectile
  by_cases hc : shootCooldown < now - gs.lastShotTime <;> simp [hc]

theorem updateGamepadState_fst_x (atan2F : F → F → F) (w h : F) (now : ℤ)
    (axes : List F) (buttons : List Bool) (gs : GamepadState F) (projs : List (Projectile F)) :
    (updateGamepadState atan2F w h now axes buttons gs projs).1.1.x
      = clampCoord w (axisMove (axes.get? 0) gs.x) := by
  unfold updateGamepadState
  by_cases ht : readTrigger buttons <;>
    simp [ht, shootProjectile_fst_x, moveAndClamp]

theorem updateGamepadState_fst_y (atan2F : F → F → F) (w h : F) (now : ℤ)
    (axes : List F) (buttons : List Bool) (gs : GamepadState F) (projs : List (Projectile F)) :
    (updateGamepadState atan2F w h now axes buttons gs projs).1.1.y
      = clampCoord h (axisMove (axes.get? 1) gs.y) := by
  unfold updateGamepadState
  by_cases ht : readTrigger buttons <;>
    simp [ht, shootProjectile_fst_y, moveAndClamp]

theorem updateGamepadState_fst_rotation (atan2F : F → F → F) (w h : F) (now : ℤ)
    (axes : List F) (buttons : List Bool) (gs : GamepadState F) (projs : List (Projectile F)) :
    (updateGamepadState atan2F w h now axes buttons gs projs).1.1.rotation
      = (if deadZone < |(axes.get? 2).getD 0| ∨ deadZone < |(axes.get? 3).getD 0|
          then atan2F ((axes.get? 3).getD 0) ((axes.get? 2).getD 0)
          else gs.rotation) := by
  unfold updateGamepadState
  by_cases ht : readTrigger buttons <;>
    simp [ht, shootProjectile_fst_rotation, moveAndClamp]

theorem updateGamepadState_projs_cases (atan2F : F → F → F) (w h : F) (now : ℤ)
    (axes : List F) (buttons : List Bool) (gs : GamepadState F) (projs : List (Projectile F)) :
    (updateGamepadState atan2F w h now axes buttons gs projs).1.2 = projs ∨
    (updateGamepadState atan2F w h now axes buttons gs projs).1.2
      = projs ++ [newProjectile (moveAndClamp atan2F w h axes gs)] := by
  unfold updateGamepadState shootProjectile
  by_cases ht : readTrigger buttons
  · by_cases hc : shootCooldown < now - (moveAndClamp atan2F w h axes gs).lastShotTime <;>
      simp [ht, hc]
  · simp [ht]

theorem tick_gamepadState_eq (cosF sinF : F → F) (atan2F : F → F → F) (w h : F) (now : ℤ)
    (reading : Option (List F × List Bool)) (s : DemoState F) :
    (tick cosF sinF atan2F w h now reading s).1.gamepadState
      = (match reading with
        | some (axes, buttons) =>
          if s.gamepadState.connected then
            (updateGamepadState atan2F w h now axes buttons s.gamepadState s.projectiles).1.1
          else s.gamepadState
        | none => s.gamepadState) := by
  rcases reading with _ | ⟨axes, buttons⟩
  · by_cases hc : s.gamepadState.connected <;> simp [tick, hc]
  · by_cases hc : s.gamepadState.connected <;> simp only [tick, hc, if_true, if_false]
    · cases hok : (updateGamepadState atan2F w h now axes buttons s.gamepadState s.projectiles).2 <;>
        simp [hok]
    · rfl

theorem stepProjectile_of_inactive (cosF sinF : F → F) (w h : F) (p : Projectile F)
    (hp : p.active = false) : stepProjectile cosF sinF w h p = p := by
  simp [stepProjectile, hp]

theorem stepProjectile_active_imp (cosF sinF : F → F) (w h : F) (p : Projectile F)
    (hq : (stepProjectile cosF sinF w h p).active = true) : p.active = true := by
  by_cases hp : p.active
  · exact hp
  · rw [stepProjectile_of_inactive cosF sinF w h p (by simpa using hp)] at hq
    exact hq

theorem mem_updateProjectiles (cosF sinF : F → F) (w h : F) {l : List (Projectile F)}
    {q : Projectile F} (hq : q ∈ updateProjectiles cosF sinF w h l) :
    ∃ p ∈ l, q = stepProjectile cosF sinF w h p := by
  by_cases hl : compactionThreshold < (List.map (stepProjectile cosF sinF w h) l).length
  · simp only [updateProjectiles, hl, if_true, List.mem_filter] at hq
    obtain ⟨p, hp, hpq⟩ := List.mem_map.mp hq.1
    exact ⟨p, hp, hpq.symm⟩
  · simp only [updateProjectiles, hl, if_false] at hq
    obtain ⟨p, hp, hpq⟩ := List.mem_map.mp hq
    exact ⟨p, hp, hpq.symm⟩

/-! ### Concrete sample states for witnesses and counterexamples -/

/-- A concrete connected entity state over ℚ (position 375, 275, rotation 0,
last shot at time 0), as produced by the constructor on an 800 × 600 canvas
followed by a connect event. -/
def gsQ : GamepadState ℚ :=
  { x := 375, y := 275, rotation := 0, connected := true, shooting := false, lastShotTime := 0 }

/-- A concrete connected demo state over ℚ with no projectiles. -/
def sQ : DemoState ℚ := { gamepadState := gsQ, projectiles := [] }

/-- A concrete connected entity state over ℝ. -/
def gsR : GamepadState ℝ :=
  { x := 375, y := 275, rotation := 0, connected := true, shooting := false, lastShotTime := 0 }

/-- A concrete connected demo state over ℝ with no projectiles. -/
def sR : DemoState ℝ := { gamepadState := gsR, projectiles := [] }

/-- A live projectile at (400, 300) with rotation 0 and speed 8, over ℝ. -/
def prR : Projectile ℝ := { x := 400, y := 300, rotation := 0, speed := 8, active := true }

/-- The projectile `prR` after one movement step on an 800 × 600 canvas. -/
def pr408R : Projectile ℝ := { x := 408, y := 300, rotation := 0, speed := 8, active := true }

/-- A dead projectile over ℚ. -/
def deadQ : Projectile ℚ := { x := 5, y := 5, rotation := 0, speed := 8, active := false }

theorem stepProjectile_prR :
    stepProjectile Real.cos Real.sin (800 : ℝ) 600 prR = pr408R := by
  simp only [stepProjectile, prR, pr408R, if_true, Real.cos_zero, Real.sin_zero]
  norm_num

/-! ### Claim theorems -/

/-- Claim C2, counterexample: with the last spawn recorded at time 0 and a fire
signal handled at time 250, exactly `cooldownMs` (= 250 ms) have elapsed, so
the claim ("at least cooldownMs has elapsed") mandates a spawn; the code's
strict comparison `now - lastShotTime > shootCooldown` spawns nothing and
leaves the spawn time unrecorded. -/
theorem shoot_at_exact_cooldown_no_spawn :
    shootCooldown ≤ (250 : ℤ) - gsQ.lastShotTime ∧
    (shootProjectile 250 gsQ ([] : List (Projectile ℚ))).2.length = 0 ∧
    (shootProjectile 250 gsQ ([] : List (Projectile ℚ))).1.lastShotTime = 0 := by
  refine ⟨by decide, ?_, ?_⟩ <;>
    simp [shootProjectile, gsQ, shootCooldown]

/-- Claim C2, amended: a fire signal spawns a projectile (and records the spawn
time) iff STRICTLY more than `cooldownMs` (250 ms) has elapsed since the last
successful spawn; no spawn occurs otherwise.  In particular two fire signals
arriving within `cooldownMs` of each other produce exactly one new
projectile. -/
theorem shoot_cooldown_strict (now t1 t2 : ℤ) (gs : GamepadState F)
    (projs : List (Projectile F)) :
    (shootCooldown < now - gs.lastShotTime →
      shootProjectile now gs projs
        = ({ gs with lastShotTime := now }, projs ++ [newProjectile gs])) ∧
    (now - gs.lastShotTime ≤ shootCooldown →
      shootProjectile now gs projs = (gs, projs)) ∧
    (shootCooldown < t1 - gs.lastShotTime → t2 - t1 ≤ shootCooldown →
      ((shootProjectile t2 (shootProjectile t1 gs projs).1
          (shootProjectile t1 gs projs).2).2).length = projs.length + 1) := by
  refine ⟨fun hlt => ?_, fun hle => ?_, fun h1 h2 => ?_⟩
  · simp [shootProjectile, hlt]
  · simp [shootProjectile, not_lt.mpr hle]
  · have e1 : shootProjectile t1 gs projs
        = ({ gs with lastShotTime := t1 }, projs ++ [newProjectile gs]) := by
      simp [shootProjectile, h1]
    rw [e1]
    have hno : ¬ shootCooldown < t2 - ({ gs with lastShotTime := t1 } : GamepadState F).lastShotTime := by
      simp only [not_lt]
      omega
    simp [shootProjectile, hno]

/-- Claim C2, witness for the amended theorem: last shot at time 0, fire
signals at times 1000 and 1100 (100 ms apart, within the 250 ms cooldown):
exactly one projectile results. -/
theorem shoot_cooldown_strict_witness :
    (shootCooldown < (1000 : ℤ) - gsQ.lastShotTime ∧ (1100 : ℤ) - 1000 ≤ shootCooldown) ∧
    ((shootProjectile 1100 (shootProjectile 1000 gsQ []).1
        (shootProjectile 1000 gsQ []).2).2).length = 1 :=
  ⟨by decide, (shoot_cooldown_strict 0 1000 1100 gsQ []).2.2 (by decide) (by decide)⟩

/-- Claim C4, confirmed: when the raw reading of a movement axis (left-stick
axis 0 horizontal, axis 1 vertical) has magnitude at most the dead zone 0.1,
the sampler moves the entity by zero on that axis, independently of the other
axis: the `axisMove` delta is zero, and the full `updateGamepadState` pass
leaves that coordinate unchanged whenever it is in bounds (which every
reachable state satisfies, the coordinate being clamped into
`[0, bound − 50]` on every connected frame). -/
theorem dead_zone_zero_delta (atan2F : F → F → F) (w h : F) (now : ℤ)
    (axes : List F) (buttons : List Bool) (gs : GamepadState F)
    (projs : List (Projectile F)) (a0 a1 : F)
    (h0 : axes.get? 0 = some a0) (h1 : axes.get? 1 = some a1) :
    (|a0| ≤ deadZone → axisMove (axes.get? 0) gs.x = gs.x) ∧
    (|a1| ≤ deadZone → axisMove (axes.get? 1) gs.y = gs.y) ∧
    (|a0| ≤ deadZone → 0 ≤ gs.x → gs.x ≤ w - 50 →
      (updateGamepadState atan2F w h now axes buttons gs projs).1.1.x = gs.x) ∧
    (|a1| ≤ deadZone → 0 ≤ gs.y → gs.y ≤ h - 50 →
      (updateGamepadState atan2F w h now axes buttons gs projs).1.1.y = gs.y) := by
  have e0 : ∀ pos : F, |a0| ≤ deadZone → axisMove (axes.get? 0) pos = pos := by
    intro pos ha
    rw [h0]
    simp [axisMove, not_lt.mpr ha]
  have e1 : ∀ pos : F, |a1| ≤ deadZone → axisMove (axes.get? 1) pos = pos := by
    intro pos ha
    rw [h1]
    simp [axisMove, not_lt.mpr ha]
  refine ⟨e0 gs.x, e1 gs.y, fun ha hb hc => ?_, fun ha hb hc => ?_⟩
  · rw [updateGamepadState_fst_x, e0 gs.x ha, clampCoord_eq_self hb hc]
  · rw [updateGamepadState_fst_y, e1 gs.y ha, clampCoord_eq_self hb hc]

/-- Claim C4, witness: both left-stick readings at 0.05 (inside the dead
zone), entity at (375, 275) on an 800 × 600 canvas: both coordinates are
unchanged by the sampler. -/
theorem dead_zone_zero_delta_witness :
    (|(1 / 20 : ℚ)| ≤ deadZone ∧
      (0 : ℚ) ≤ gsQ.x ∧ gsQ.x ≤ 800 - 50 ∧ (0 : ℚ) ≤ gsQ.y ∧ gsQ.y ≤ 600 - 50) ∧
    (updateGamepadState (fun _ _ => 0) 800 600 0 [1 / 20, 1 / 20] [] gsQ []).1.1.x = gsQ.x ∧
    (updateGamepadState (fun _ _ => 0) 800 600 0 [1 / 20, 1 / 20] [] gsQ []).1.1.y = gsQ.y :=
  ⟨⟨by norm_num [abs_le, deadZone], by norm_num [gsQ], by norm_num [gsQ], by norm_num [gsQ],
      by norm_num [gsQ]⟩,
   (dead_zone_zero_delta (fun _ _ => 0) 800 600 0 [1 / 20, 1 / 20] [] gsQ [] (1 / 20) (1 / 20)
      rfl rfl).2.2.1 (by norm_num [abs_le, deadZone]) (by norm_num [gsQ]) (by norm_num [gsQ]),
   (dead_zone_zero_delta (fun _ _ => 0) 800 600 0 [1 / 20, 1 / 20] [] gsQ [] (1 / 20) (1 / 20)
      rfl rfl).2.2.2 (by norm_num [abs_le, deadZone]) (by norm_num [gsQ]) (by norm_num [gsQ])⟩

/-- Claim C7, confirmed: when at least one right-stick reading (axis 2
horizontal, axis 3 vertical, each defaulted to 0 when the index is absent)
exceeds the dead zone in magnitude, the frame's resulting orientation is
`atan2(vertical, horizontal)`; when both are within the dead zone the
orientation is exactly the previous frame's value (sample and hold). -/
theorem rotation_sample_and_hold (atan2F : F → F → F) (w h : F) (now : ℤ)
    (axes : List F) (buttons : List Bool) (gs : GamepadState F)
    (projs : List (Projectile F)) :
    ((deadZone < |(axes.get? 2).getD 0| ∨ deadZone < |(axes.get? 3).getD 0|) →
      (updateGamepadState atan2F w h now axes buttons gs projs).1.1.rotation
        = atan2F ((axes.get? 3).getD 0) ((axes.get? 2).getD 0)) ∧
    (|(axes.get? 2).getD 0| ≤ deadZone → |(axes.get? 3).getD 0| ≤ deadZone →
      (updateGamepadState atan2F w h now axes buttons gs projs).1.1.rotation
        = gs.rotation) := by
  refine ⟨fun hor => ?_, fun h2 h3 => ?_⟩
  · rw [updateGamepadState_fst_rotation, if_pos hor]
  · rw [updateGamepadState_fst_rotation, if_neg (by push_neg; exact ⟨h2, h3⟩)]

/-- Claim C7, witness: right stick at (0.5, 0) exceeds the dead zone, so the
orientation becomes `atan2(0, 0.5)`; right stick at (0.05, 0.05) is inside
the dead zone on both axes, so the orientation stays at the previous value
0. -/
theorem rotation_sample_and_hold_witness :
    (deadZone < |(([1 / 20, 1 / 20, 1 / 2, 0] : List ℚ).get? 2).getD 0| ∧
      |(([1 / 20, 1 / 20] : List ℚ).get? 2).getD 0| ≤ deadZone ∧
      |(([1 / 20, 1 / 20] : List ℚ).get? 3).getD 0| ≤ deadZone) ∧
    (updateGamepadState (fun y x => x - y) 800 600 0 [1 / 20, 1 / 20, 1 / 2, 0] [] gsQ []).1.1.rotation
      = (fun y x => x - y) ((([1 / 20, 1 / 20, 1 / 2, 0] : List ℚ).get? 3).getD 0)
          ((([1 / 20, 1 / 20, 1 / 2, 0] : List ℚ).get? 2).getD 0) ∧
    (updateGamepadState (fun y x => x - y) 800 600 0 [1 / 20, 1 / 20] [] gsQ []).1.1.rotation
      = gsQ.rotation :=
  ⟨⟨by norm_num [lt_abs, deadZone], by norm_num [abs_le, deadZone],
      by norm_num [abs_le, deadZone]⟩,
   (rotation_sample_and_hold (fun y x => x - y) 800 600 0 [1 / 20, 1 / 20, 1 / 2, 0] [] gsQ []).1
     (Or.inl (by norm_num [lt_abs, deadZone])),
   (rotation_sample_and_hold (fun y x => x - y) 800 600 0 [1 / 20, 1 / 20] [] gsQ []).2
     (by norm_num [abs_le, deadZone]) (by norm_num [abs_le, deadZone])⟩

/-- A disconnected demo state over ℝ holding one live projectile. -/
def sDiscR : DemoState ℝ :=
  { gamepadState :=
      { x := 375, y := 275, rotation := 0, connected := false, shooting := false,
        lastShotTime := 0 }
    projectiles := [prR] }

/-- Claim C1, counterexample: in a disconnected state holding one live
projectile at (400, 300) with rotation 0, a tick still runs the projectile
update pass (the game loop calls it unconditionally), advancing the
projectile to (408, 300): the projectile list does not stay unchanged. -/
theorem tick_disconnected_changes_projectiles :
    sDiscR.gamepadState.connected = false ∧
    (tick Real.cos Real.sin (fun _ _ => 0) 800 600 0 none sDiscR).1.projectiles = [pr408R] ∧
    (tick Real.cos Real.sin (fun _ _ => 0) 800 600 0 none sDiscR).1.projectiles
      ≠ sDiscR.projectiles := by
  have hlist : (tick Real.cos Real.sin (fun _ _ => 0) 800 600 0 none sDiscR).1.projectiles
      = [pr408R] := by
    simp only [tick, sDiscR, Bool.false_eq_true, if_false, updateProjectiles,
      List.map_cons, List.map_nil, stepProjectile_prR, List.length_cons, List.length_nil]
    rw [if_neg (by norm_num [compactionThreshold])]
  refine ⟨rfl, hlist, ?_⟩
  rw [hlist]
  simp only [sDiscR, pr408R, prR, ne_eq, List.cons.injEq, Projectile.mk.injEq]
  norm_num

/-- Claim C1, amended: a tick run while the connectivity flag is false skips
the input sampler — the entity's position, orientation and whole
`GamepadState` are unchanged — and the frame completes; but the projectile
update pass still runs unconditionally, so the projectile list becomes
`updateProjectiles` of the previous list (live projectiles advance, may be
retired, and the array may be compacted); only the entity state is left
as-is. -/
theorem tick_disconnected_preserves_entity_state (cosF sinF : F → F) (atan2F : F → F → F)
    (w h : F) (now : ℤ) (reading : Option (List F × List Bool)) (s : DemoState F)
    (hd : s.gamepadState.connected = false) :
    (tick cosF sinF atan2F w h now reading s).1.gamepadState = s.gamepadState ∧
    (tick cosF sinF atan2F w h now reading s).1.projectiles
      = updateProjectiles cosF sinF w h s.projectiles ∧
    (tick cosF sinF atan2F w h now reading s).2 = true := by
  refine ⟨?_, ?_, ?_⟩ <;> simp [tick, hd]

/-- Claim C1, witness for the amended theorem: the initial state is
disconnected; a tick on it keeps the entity state and completes. -/
theorem tick_disconnected_preserves_entity_state_witness :
    ((initState (F := ℚ) 800 600).gamepadState.connected = false) ∧
    (tick (fun _ => (0 : ℚ)) (fun _ => 0) (fun _ _ => 0) 800 600 7 none
        (initState (F := ℚ) 800 600)).1.gamepadState
      = (initState (F := ℚ) 800 600).gamepadState ∧
    (tick (fun _ => (0 : ℚ)) (fun _ => 0) (fun _ _ => 0) 800 600 7 none
        (initState (F := ℚ) 800 600)).2 = true :=
  ⟨rfl,
   (tick_disconnected_preserves_entity_state (fun _ => (0 : ℚ)) (fun _ => 0) (fun _ _ => 0)
      800 600 7 none (initState 800 600) rfl).1,
   (tick_disconnected_preserves_entity_state (fun _ => (0 : ℚ)) (fun _ => 0) (fun _ _ => 0)
      800 600 7 none (initState 800 600) rfl).2.2⟩

/-- Claim C5, confirmed: on a canvas at least 50 × 50, the initial position
lies in `[0, w − 50] × [0, h − 50]`, every tick keeps the controlled
entity's coordinates in that box (each coordinate clamped into its interval
independently after the delta is applied), and the connect / disconnect
notifications keep it too — so the property is an invariant of every
reachable state. -/
theorem entity_bounds_invariant (cosF sinF : F → F) (atan2F : F → F → F) (w h : F)
    (hw : 50 ≤ w) (hh : 50 ≤ h) :
    entityInBounds w h (initState w h : DemoState F).gamepadState ∧
    (∀ (now : ℤ) (reading : Option (List F × List Bool)) (s : DemoState F),
      entityInBounds w h s.gamepadState →
      entityInBounds w h (tick cosF sinF atan2F w h now reading s).1.gamepadState) ∧
    (∀ s : DemoState F,
      entityInBounds w h s.gamepadState →
      entityInBounds w h (onGamepadConnected s).gamepadState ∧
      entityInBounds w h (onGamepadDisconnected s).gamepadState) := by
  refine ⟨?_, ?_, fun s hs => ⟨hs, hs⟩⟩
  · refine ⟨?_, ?_, ?_, ?_⟩ <;> simp only [initState] <;> linarith
  · intro now reading s hs
    rw [tick_gamepadState_eq]
    rcases reading with _ | ⟨axes, buttons⟩
    · exact hs
    · by_cases hc : s.gamepadState.connected = true
      · simp only [hc, if_true]
        exact ⟨by rw [updateGamepadState_fst_x]; exact (clampCoord_mem hw _).1,
               by rw [updateGamepadState_fst_x]; exact (clampCoord_mem hw _).2,
               by rw [updateGamepadState_fst_y]; exact (clampCoord_mem hh _).1,
               by rw [updateGamepadState_fst_y]; exact (clampCoord_mem hh _).2⟩
      · simp only [hc, if_false]
        exact hs

/-- Claim C5, witness: on the 800 × 600 canvas, the initial position is in
bounds and stays in bounds after a tick. -/
theorem entity_bounds_invariant_witness :
    ((50 : ℚ) ≤ 800 ∧ (50 : ℚ) ≤ 600) ∧
    entityInBounds (800 : ℚ) 600 (initState (F := ℚ) 800 600).gamepadState ∧
    entityInBounds (800 : ℚ) 600
      (tick (fun _ => (0 : ℚ)) (fun _ => 0) (fun _ _ => 0) 800 600 5 none
        (initState (F := ℚ) 800 600)).1.gamepadState :=
  ⟨⟨by norm_num, by norm_num⟩,
   (entity_bounds_invariant (fun _ => (0 : ℚ)) (fun _ => 0) (fun _ _ => 0) 800 600
      (by norm_num) (by norm_num)).1,
   (entity_bounds_invariant (fun _ => (0 : ℚ)) (fun _ => 0) (fun _ _ => 0) 800 600
      (by norm_num) (by norm_num)).2.1 5 none _
     ((entity_bounds_invariant (fun _ => (0 : ℚ)) (fun _ => 0) (fun _ _ => 0) 800 600
        (by norm_num) (by norm_num)).1)⟩

/-- Claim C3, counterexample: 101 projectiles, all live at (400, 300) with
rotation 0 on an 800 × 600 canvas: the stored count 101 exceeds the
threshold 100, every projectile is still live after the movement step, and
the pass keeps all 101 entries — the stored count equals the live count but
is NOT strictly reduced. -/
theorem compaction_not_strict_when_all_live :
    compactionThreshold < (List.replicate 101 prR).length ∧
    (updateProjectiles Real.cos Real.sin 800 600 (List.replicate 101 prR)).length
      = (List.replicate 101 prR).length := by
  constructor
  · simp [compactionThreshold]
  · simp only [updateProjectiles, List.map_replicate, stepProjectile_prR,
      List.length_replicate]
    rw [if_pos (by norm_num [compactionThreshold]), List.filter_replicate]
    simp [pr408R]

/-- Claim C3, amended: when the stored count (live plus dead) is at most 100
the pass removes nothing — the length is preserved; when it exceeds 100 the
pass keeps exactly the projectiles that are live after the movement step —
the stored count becomes the live count, which never exceeds the previous
count and is strictly below it exactly when at least one entry is dead. -/
theorem compaction_policy (cosF sinF : F → F) (w h : F) (projs : List (Projectile F)) :
    (projs.length ≤ compactionThreshold →
      (updateProjectiles cosF sinF w h projs).length = projs.length) ∧
    (compactionThreshold < projs.length →
      (updateProjectiles cosF sinF w h projs)
        = (projs.map (stepProjectile cosF sinF w h)).filter (fun p => p.active) ∧
      (updateProjectiles cosF sinF w h projs).length
        = (projs.map (stepProjectile cosF sinF w h)).countP (fun p => p.active) ∧
      (updateProjectiles cosF sinF w h projs).length ≤ projs.length) := by
  have hlen : (projs.map (stepProjectile cosF sinF w h)).length = projs.length :=
    List.length_map _ _
  constructor
  · intro hle
    simp only [updateProjectiles]
    rw [if_neg (by rw [hlen]; exact not_lt.mpr hle), hlen]
  · intro hgt
    have hcond : compactionThreshold < (projs.map (stepProjectile cosF sinF w h)).length := by
      rw [hlen]; exact hgt
    refine ⟨?_, ?_, ?_⟩
    · simp only [updateProjectiles]
      rw [if_pos hcond]
    · simp only [updateProjectiles]
      rw [if_pos hcond]
      exact (List.countP_eq_length_filter _ _).symm
    · simp only [updateProjectiles]
      rw [if_pos hcond]
      exact le_trans (List.length_filter_le _ _) (le_of_eq hlen)

/-- Claim C3, witness for the amended theorem: 101 stored projectiles, all
dead: the pass drops every entry, reducing the stored count to the live
count 0. -/
theorem compaction_policy_witness :
    compactionThreshold < (List.replicate 101 deadQ).length ∧
    (updateProjectiles (fun _ => (0 : ℚ)) (fun _ => 0) 800 600
        (List.replicate 101 deadQ)).length
      = ((List.replicate 101 deadQ).map
          (stepProjectile (fun _ => (0 : ℚ)) (fun _ => 0) 800 600)).countP
            (fun p => p.active) ∧
    (updateProjectiles (fun _ => (0 : ℚ)) (fun _ => 0) 800 600
        (List.replicate 101 deadQ)).length = 0 := by
  have hgt : compactionThreshold < (List.replicate 101 deadQ).length := by
    simp [compactionThreshold]
  have heq := ((compaction_policy (fun _ => (0 : ℚ)) (fun _ => 0) 800 600
      (List.replicate 101 deadQ)).2 hgt).2.1
  refine ⟨hgt, heq, ?_⟩
  rw [heq]
  simp only [List.map_replicate,
    stepProjectile_of_inactive (fun _ => (0 : ℚ)) (fun _ => 0) 800 600 deadQ rfl]
  rw [List.countP_eq_length_filter, List.filter_replicate]
  simp [deadQ]

theorem stepProjectile_x_of_active (cosF sinF : F → F) (w h : F) (p : Projectile F)
    (hp : p.active = true) :
    (stepProjectile cosF sinF w h p).x = p.x + cosF p.rotation * p.speed := by
  simp [stepProjectile, hp]

theorem stepProjectile_y_of_active (cosF sinF : F → F) (w h : F) (p : Projectile F)
    (hp : p.active = true) :
    (stepProjectile cosF sinF w h p).y = p.y + sinF p.rotation * p.speed := by
  simp [stepProjectile, hp]

theorem stepProjectile_active_iff (cosF sinF : F → F) (w h : F) (p : Projectile F)
    (hp : p.active = true) :
    ((stepProjectile cosF sinF w h p).active = true
      ↔ ¬((stepProjectile cosF sinF w h p).x < 0 ∨ w < (stepProjectile cosF sinF w h p).x ∨
          (stepProjectile cosF sinF w h p).y < 0 ∨ h < (stepProjectile cosF sinF w h p).y)) := by
  rw [stepProjectile_x_of_active cosF sinF w h p hp, stepProjectile_y_of_active cosF sinF w h p hp]
  by_cases hcnd : p.x + cosF p.rotation * p.speed < 0 ∨ w < p.x + cosF p.rotation * p.speed ∨
      p.y + sinF p.rotation * p.speed < 0 ∨ h < p.y + sinF p.rotation * p.speed
  · simp [stepProjectile, hp, hcnd]
  · simp [stepProjectile, hp, hcnd]

/-- A live projectile over ℚ whose movement step (under the zero trig
functions) keeps it in place and in bounds. -/
def liveQ : Projectile ℚ := { x := 5, y := 5, rotation := 0, speed := 8, active := true }

/-- A disconnected demo state over ℚ holding one live projectile. -/
def sDiscQ : DemoState ℚ :=
  { gamepadState :=
      { x := 375, y := 275, rotation := 0, connected := false, shooting := false,
        lastShotTime := 0 }
    projectiles := [liveQ] }

/-- Claim C6, confirmed: projectile liveness is monotone.  The movement step
leaves a dead projectile completely untouched (so it can never revive it),
and every projectile present after a full tick traces back to an origin —
either a previously stored projectile or the freshly spawned, live one —
that it equals or is the movement step of, and along that trace liveness
only ever passes from true to false: no operation (update, spawn or
compaction) sets a false liveness flag back to true. -/
theorem liveness_monotone (cosF sinF : F → F) (atan2F : F → F → F) (w h : F) (now : ℤ)
    (reading : Option (List F × List Bool)) (s : DemoState F) :
    (∀ p : Projectile F, p.active = false → stepProjectile cosF sinF w h p = p) ∧
    (∀ q ∈ (tick cosF sinF atan2F w h now reading s).1.projectiles,
      ∃ p, (p ∈ s.projectiles ∨ p.active = true) ∧
        (q = stepProjectile cosF sinF w h p ∨ q = p) ∧
        (q.active = true → p.active = true)) := by
  refine ⟨fun p hp => stepProjectile_of_inactive cosF sinF w h p hp, ?_⟩
  intro q hq
  by_cases hc : s.gamepadState.connected = true
  · rcases reading with _ | ⟨axes, buttons⟩
    · have hq2 : q ∈ updateProjectiles cosF sinF w h s.projectiles := by
        simpa [tick, hc] using hq
      obtain ⟨p, hp, rfl⟩ := mem_updateProjectiles cosF sinF w h hq2
      exact ⟨p, Or.inl hp, Or.inl rfl, stepProjectile_active_imp cosF sinF w h p⟩
    · cases hok : (updateGamepadState atan2F w h now axes buttons s.gamepadState s.projectiles).2
      · have hq2 : q ∈ (updateGamepadState atan2F w h now axes buttons
            s.gamepadState s.projectiles).1.2 := by
          simpa [tick, hc, hok] using hq
        rcases updateGamepadState_projs_cases atan2F w h now axes buttons
            s.gamepadState s.projectiles with hcase | hcase
        · rw [hcase] at hq2
          exact ⟨q, Or.inl hq2, Or.inr rfl, fun hqa => hqa⟩
        · rw [hcase] at hq2
          rcases List.mem_append.mp hq2 with hmem | hmem
          · exact ⟨q, Or.inl hmem, Or.inr rfl, fun hqa => hqa⟩
          · have hqe : q = newProjectile (moveAndClamp atan2F w h axes s.gamepadState) :=
              List.mem_singleton.mp hmem
            exact ⟨q, Or.inr (by rw [hqe]; rfl), Or.inr rfl, fun hqa => hqa⟩
      · have hq2 : q ∈ updateProjectiles cosF sinF w h
            (updateGamepadState atan2F w h now axes buttons s.gamepadState s.projectiles).1.2 := by
          simpa [tick, hc, hok] using hq
        obtain ⟨p, hp, rfl⟩ := mem_updateProjectiles cosF sinF w h hq2
        rcases updateGamepadState_projs_cases atan2F w h now axes buttons
            s.gamepadState s.projectiles with hcase | hcase
        · rw [hcase] at hp
          exact ⟨p, Or.inl hp, Or.inl rfl, stepProjectile_active_imp cosF sinF w h p⟩
        · rw [hcase] at hp
          rcases List.mem_append.mp hp with hmem | hmem
          · exact ⟨p, Or.inl hmem, Or.inl rfl, stepProjectile_active_imp cosF sinF w h p⟩
          · have hpe : p = newProjectile (moveAndClamp atan2F w h axes s.gamepadState) :=
              List.mem_singleton.mp hmem
            exact ⟨p, Or.inr (by rw [hpe]; rfl), Or.inl rfl,
              stepProjectile_active_imp cosF sinF w h p⟩
  · have hq2 : q ∈ updateProjectiles cosF sinF w h s.projectiles := by
      simpa [tick, hc] using hq
    obtain ⟨p, hp, rfl⟩ := mem_updateProjectiles cosF sinF w h hq2
    exact ⟨p, Or.inl hp, Or.inl rfl, stepProjectile_active_imp cosF sinF w h p⟩

/-- Claim C6, witness: a disconnected tick over a single live projectile at
(5, 5); the projectile found in the output list traces back to a stored
live origin. -/
theorem liveness_monotone_witness :
    ∃ p, (p ∈ sDiscQ.projectiles ∨ p.active = true) ∧
      (liveQ = stepProjectile (fun _ => (0 : ℚ)) (fun _ => 0) 800 600 p ∨ liveQ = p) ∧
      (liveQ.active = true → p.active = true) :=
  (liveness_monotone (fun _ => (0 : ℚ)) (fun _ => 0) (fun _ _ => 0) 800 600 3 none sDiscQ).2
    liveQ
    (by
      have hstep : stepProjectile (fun _ => (0 : ℚ)) (fun _ => 0) 800 600 liveQ = liveQ := by
        simp only [stepProjectile, liveQ, if_true]
        norm_num
      simp [tick, sDiscQ, updateProjectiles, compactionThreshold, hstep])

/-- Claim C8, code bug: the source tolerates absent right-stick axes (the
`|| 0` fallback on axes 2 and 3) and absent buttons (`?.pressed`), but reads
axes 0 and 1 with no fallback and later calls `.toFixed(2)` on them when
composing the status line; a controller exposing fewer than two axes
therefore throws a TypeError mid-frame, aborting the frame, skipping the
projectile pass and the render, and never re-arming the loop — the frame
does not complete normally.  The first conjunct exhibits the aborted frame
(empty axes array); the second shows the state mutations before the throw
point still stand (no projectile pass ran); the third shows a frame with
both primary axes present (and everything else absent) completes
normally. -/
theorem missing_primary_axes_abort_frame :
    (tick (fun _ => (0 : ℚ)) (fun _ => 0) (fun _ _ => 0) 800 600 0
        (some ([], [])) sQ).2 = false ∧
    (tick (fun _ => (0 : ℚ)) (fun _ => 0) (fun _ _ => 0) 800 600 0
        (some ([], [])) sQ).1.projectiles = sQ.projectiles ∧
    (tick (fun _ => (0 : ℚ)) (fun _ => 0) (fun _ _ => 0) 800 600 0
        (some ([1 / 20, 1 / 20], [])) sQ).2 = true :=
  ⟨rfl, rfl, rfl⟩

/-- Claim C9, confirmed: a successful spawn appends a projectile positioned
at the entity's centre (position plus 25 on each axis), carrying the
entity's current orientation and the fixed speed 8; a movement step advances
a live projectile by exactly `cos(angle) · speed` in x and
`sin(angle) · speed` in y, so at angle 0 one step moves it by exactly its
speed along +x and not at all along y. -/
theorem spawn_fields_and_step_advance (w h : ℝ) (now : ℤ) (gs : GamepadState ℝ)
    (projs : List (Projectile ℝ)) (p : Projectile ℝ)
    (hcool : shootCooldown < now - gs.lastShotTime) (hp : p.active = true) :
    (shootProjectile now gs projs).2 = projs ++ [newProjectile gs] ∧
    (newProjectile gs).x = gs.x + 25 ∧
    (newProjectile gs).y = gs.y + 25 ∧
    (newProjectile gs).rotation = gs.rotation ∧
    (newProjectile gs).speed = 8 ∧
    (stepProjectile Real.cos Real.sin w h p).x = p.x + Real.cos p.rotation * p.speed ∧
    (stepProjectile Real.cos Real.sin w h p).y = p.y + Real.sin p.rotation * p.speed ∧
    (p.rotation = 0 →
      (stepProjectile Real.cos Real.sin w h p).x = p.x + p.speed ∧
      (stepProjectile Real.cos Real.sin w h p).y = p.y) := by
  refine ⟨by simp [shootProjectile, hcool], rfl, rfl, rfl, rfl,
    stepProjectile_x_of_active Real.cos Real.sin w h p hp,
    stepProjectile_y_of_active Real.cos Real.sin w h p hp, fun h0 => ⟨?_, ?_⟩⟩
  · rw [stepProjectile_x_of_active Real.cos Real.sin w h p hp, h0, Real.cos_zero, one_mul]
  · rw [stepProjectile_y_of_active Real.cos Real.sin w h p hp, h0, Real.sin_zero, zero_mul,
      add_zero]

/-- Claim C9, witness: entity at (375, 275) with rotation 0, firing at time
300 (cooldown elapsed): the spawned projectile sits at the centre
(400, 300) and one step moves it to (408, 300). -/
theorem spawn_fields_and_step_advance_witness :
    (shootCooldown < (300 : ℤ) - gsR.lastShotTime ∧ (newProjectile gsR).active = true) ∧
    (shootProjectile 300 gsR []).2 = [newProjectile gsR] ∧
    (newProjectile gsR).x = 400 ∧
    (newProjectile gsR).y = 300 ∧
    (stepProjectile Real.cos Real.sin 800 600 (newProjectile gsR)).x = 408 ∧
    (stepProjectile Real.cos Real.sin 800 600 (newProjectile gsR)).y = 300 := by
  have H := spawn_fields_and_step_advance 800 600 300 gsR [] (newProjectile gsR)
    (by norm_num [gsR, shootCooldown]) rfl
  refine ⟨⟨by norm_num [gsR, shootCooldown], rfl⟩, by simpa using H.1, ?_, ?_, ?_, ?_⟩
  · rw [H.2.1]; norm_num [gsR]
  · rw [H.2.2.1]; norm_num [gsR]
  · rw [(H.2.2.2.2.2.2.2 rfl).1]
    norm_num [newProjectile, gsR]
  · rw [(H.2.2.2.2.2.2.2 rfl).2]
    norm_num [newProjectile, gsR]

/-- Claim C10, confirmed for frames that complete (both primary axis
readings present, so the status update does not throw): the game loop runs
the input sampler — which performs the spawn — strictly before the
projectile update pass, so the post-tick projectile list is the update pass
applied to the old list with the fresh projectile appended.  The fresh
projectile is spawned live and is advanced one whole step (by `cos θ · 8` /
`sin θ · 8`, never the zero vector, since `sin² + cos² = 1` and the speed is
8) and possibly deactivated when the step leaves `[0, w] × [0, h]`, all
before the render that ends the tick: it is never rendered at its spawn
position. -/
theorem spawn_advanced_before_render (atan2F : ℝ → ℝ → ℝ) (w h : ℝ) (now : ℤ)
    (axes : List ℝ) (buttons : List Bool) (s : DemoState ℝ)
    (hconn : s.gamepadState.connected = true)
    (hok : statusOk axes = true)
    (htrig : readTrigger buttons = true)
    (hcool : shootCooldown < now - s.gamepadState.lastShotTime) :
    ∃ fresh stepped : Projectile ℝ,
      fresh = newProjectile (moveAndClamp atan2F w h axes s.gamepadState) ∧
      stepped = stepProjectile Real.cos Real.sin w h fresh ∧
      (tick Real.cos Real.sin atan2F w h now (some (axes, buttons)) s).1.projectiles
        = updateProjectiles Real.cos Real.sin w h (s.projectiles ++ [fresh]) ∧
      fresh.active = true ∧
      stepped.x = fresh.x + Real.cos fresh.rotation * 8 ∧
      stepped.y = fresh.y + Real.sin fresh.rotation * 8 ∧
      ¬(stepped.x = fresh.x ∧ stepped.y = fresh.y) ∧
      (stepped.active = true ↔
        ¬(stepped.x < 0 ∨ w < stepped.x ∨ stepped.y < 0 ∨ h < stepped.y)) := by
  refine ⟨newProjectile (moveAndClamp atan2F w h axes s.gamepadState),
    stepProjectile Real.cos Real.sin w h
      (newProjectile (moveAndClamp atan2F w h axes s.gamepadState)),
    rfl, rfl, ?_, rfl, ?_, ?_, ?_,
    stepProjectile_active_iff Real.cos Real.sin w h _ rfl⟩
  · have hcool2 : shootCooldown
        < now - (moveAndClamp atan2F w h axes s.gamepadState).lastShotTime := hcool
    have hok2 := hok
    simp only [statusOk, Bool.and_eq_true, List.get?_eq_getElem?] at hok2
    simp only [tick, hconn, if_true, updateGamepadState, htrig, if_true, statusOk]
    simp [shootProjectile, hcool2, hok2]
  · exact stepProjectile_x_of_active Real.cos Real.sin w h _ rfl
  · exact stepProjectile_y_of_active Real.cos Real.sin w h _ rfl
  · rintro ⟨hx, hy⟩
    rw [stepProjectile_x_of_active Real.cos Real.sin w h _ rfl] at hx
    rw [stepProjectile_y_of_active Real.cos Real.sin w h _ rfl] at hy
    have hcos : Real.cos (newProjectile (moveAndClamp atan2F w h axes s.gamepadState)).rotation
        = 0 := by
      have h8 : Real.cos (newProjectile (moveAndClamp atan2F w h axes s.gamepadState)).rotation
          * (newProjectile (moveAndClamp atan2F w h axes s.gamepadState)).speed = 0 := by
        linarith
      rcases mul_eq_zero.mp h8 with hz | hz
      · exact hz
      · exact absurd hz (by norm_num [newProjectile])
    have hsin : Real.sin (newProjectile (moveAndClamp atan2F w h axes s.gamepadState)).rotation
        = 0 := by
      have h8 : Real.sin (newProjectile (moveAndClamp atan2F w h axes s.gamepadState)).rotation
          * (newProjectile (moveAndClamp atan2F w h axes s.gamepadState)).speed = 0 := by
        linarith
      rcases mul_eq_zero.mp h8 with hz | hz
      · exact hz
      · exact absurd hz (by norm_num [newProjectile])
    have hone := Real.sin_sq_add_cos_sq
      (newProjectile (moveAndClamp atan2F w h axes s.gamepadState)).rotation
    rw [hcos, hsin] at hone
    norm_num at hone

/-- Claim C10, witness: connected state at (375, 275), trigger held via
button 5, cooldown elapsed at time 300, all four axes reading 0: the tick
spawns a projectile and the update pass advances it before the render. -/
theorem spawn_advanced_before_render_witness :
    (readTrigger [false, false, false, false, false, true] = true ∧
      statusOk ([0, 0, 0, 0] : List ℝ) = true ∧
      shootCooldown < (300 : ℤ) - sR.gamepadState.lastShotTime) ∧
    ∃ fresh stepped : Projectile ℝ,
      fresh = newProjectile (moveAndClamp (fun _ _ => 0) 800 600 [0, 0, 0, 0] sR.gamepadState) ∧
      stepped = stepProjectile Real.cos Real.sin 800 600 fresh ∧
      (tick Real.cos Real.sin (fun _ _ => 0) 800 600 300
          (some ([0, 0, 0, 0], [false, false, false, false, false, true])) sR).1.projectiles
        = updateProjectiles Real.cos Real.sin 800 600 (sR.projectiles ++ [fresh]) ∧
      fresh.active = true ∧
      stepped.x = fresh.x + Real.cos fresh.rotation * 8 ∧
      stepped.y = fresh.y + Real.sin fresh.rotation * 8 ∧
      ¬(stepped.x = fresh.x ∧ stepped.y = fresh.y) ∧
      (stepped.active = true ↔
        ¬(stepped.x < 0 ∨ (800 : ℝ) < stepped.x ∨ stepped.y < 0 ∨ (600 : ℝ) < stepped.y)) :=
  ⟨⟨by decide, rfl, by decide⟩,
   spawn_advanced_before_render (fun _ _ => 0) 800 600 300 [0, 0, 0, 0]
     [false, false, false, false, false, true] sR rfl rfl (by decide) (by decide)⟩

end GamepadDemo
